import Mathlib

/-!
Shallow embedding of src/chat-server.js: the session/presence/room
coordination core of a socket.io chat relay backed by a Firestore store.

Modelling conventions:
* In-memory JS Maps (activeUsers, userRooms) are association lists with
  JS-Map semantics: insertion keeps the position of an existing key and
  appends new keys at the end; delete removes the key.
* The durable message log (collection chatMessages) is a list of
  (docId, data) pairs in creation (append) order; the query
  orderBy createdAt desc is the reverse of that list, which matches
  Firestore for monotonically increasing createdAt values.
* Awaited store writes may fail (a rejected promise caught by the
  handler's try/catch); each handler takes the outcome of its store
  round-trip as an explicit Boolean parameter.
* Each handler returns the new server state together with the ordered
  trace of externally visible actions it performed: durable-store writes
  and socket emissions, in program order.
-/

namespace ChatServer

/-- JS truthiness choice on a string: s or-else d, where the empty string is falsy. -/
def jsOr (s d : String) : String :=
  if s = "" then d else s

/-- JS truthiness choice on an optional string (undefined or falsy picks the default). -/
def jsOrOpt (o : Option String) (d : String) : String :=
  match o with
  | none => d
  | some s => jsOr s d

/-- Entry of the activeUsers map (user:join handler, lines 106-113). -/
structure Session where
  userId : String
  userName : String
  userEmail : String
  avatar : String
  socketId : String
  joinedAt : Nat
deriving DecidableEq, Repr

/-- A chatMessages document as written by message:send (lines 163-182). -/
structure StoredMessage where
  id : String
  content : String
  type : String
  userId : String
  userName : String
  userEmail : String
  avatar : String
  roomId : String
  likes : List String
  replies : List String
  createdAt : Nat
deriving DecidableEq, Repr

/-- A chatPresence document (user:join lines 120-127, disconnect lines 262-265). -/
structure PresenceRec where
  isOnline : Bool
  lastSeen : Nat
  socketId : String
  userName : String
  userEmail : String
  avatar : String
deriving DecidableEq, Repr

/-- Association-list lookup (JS Map.get). -/
def mlookup {α : Type} (m : List (String × α)) (k : String) : Option α :=
  match m with
  | [] => none
  | (k', v) :: rest => if k' = k then some v else mlookup rest k

/-- Association-list insert (JS Map.set): update in place, or append a new key. -/
def mset {α : Type} (m : List (String × α)) (k : String) (v : α) : List (String × α) :=
  match m with
  | [] => [(k, v)]
  | (k', v') :: rest => if k' = k then (k, v) :: rest else (k', v') :: mset rest k v

/-- Association-list delete (JS Map.delete; keys are unique in a Map). -/
def merase {α : Type} (m : List (String × α)) (k : String) : List (String × α) :=
  match m with
  | [] => []
  | (k', v') :: rest => if k' = k then merase rest k else (k', v') :: merase rest k

/-- The whole server state: the two in-memory maps plus the two durable
collections of the external store. -/
structure ServerState where
  activeUsers : List (String × Session)
  userRooms : List (String × List String)
  chatMessages : List (String × StoredMessage)
  presence : List (String × PresenceRec)
deriving DecidableEq, Repr

/-- State at process start: empty maps, and we begin from an empty store. -/
def initState : ServerState :=
  { activeUsers := [], userRooms := [], chatMessages := [], presence := [] }

/-- Externally visible actions of a handler, in program order: durable
writes and socket emissions. -/
inductive Action where
  | persistMessage (docId : String) (m : StoredMessage)
  | persistPresence (userId : String) (isOnline : Bool)
  | persistLikes (docId : String) (likes : List String)
  | emitError (handle : String) (msg : String)
  | emitUserJoined (room : String) (sender : String) (userId : String) (userName : String)
  | emitUsersList (handle : String) (users : List Session)
  | emitMessageNew (room : String) (m : StoredMessage) (firebaseId : String)
  | emitTyping (start : Bool) (room : String) (sender : String) (userId : String)
  | emitMessageLiked (room : String) (messageId : String) (likes : List String)
      (userId : String) (action : String)
  | emitUserLeft (room : String) (sender : String) (userId : String) (userName : String)
  | emitHistory (handle : String) (msgs : List (String × StoredMessage))
deriving DecidableEq, Repr

/-- Payload of user:join. -/
structure JoinData where
  userId : String
  userName : String
  userEmail : String
  avatar : String
deriving DecidableEq, Repr

/-- Payload of message:send; type and roomId take destructuring defaults. -/
structure SendData where
  content : String
  type : Option String
  roomId : Option String
deriving DecidableEq, Repr

/-- Payload of message:like. -/
structure LikeData where
  messageId : String
  action : String
deriving DecidableEq, Repr

/-- Payload of messages:history; all fields take destructuring defaults. -/
structure HistoryData where
  roomId : Option String
  limit : Option Nat
  lastMessageId : Option String
deriving DecidableEq, Repr

/-- The session object stored by user:join (lines 106-113). -/
def mkSession (u : JoinData) (handle : String) (now : Nat) : Session :=
  { userId := u.userId, userName := u.userName, userEmail := u.userEmail,
    avatar := u.avatar, socketId := handle, joinedAt := now }

/-- user:join handler (lines 101-149). Registers the session and the room
membership, then awaits the presence write (outcome ok); on success it
broadcasts user:joined to the room (excluding the sender) and sends the
users:list to the joiner; on failure the catch emits a generic error. -/
def userJoin (st : ServerState) (handle : String) (u : JoinData) (now : Nat) (ok : Bool) :
    ServerState × List Action :=
  let session := mkSession u handle now
  let st1 : ServerState :=
    { st with activeUsers := mset st.activeUsers handle session,
              userRooms := mset st.userRooms handle ["public-hub"] }
  if ok then
    let pres : PresenceRec :=
      { isOnline := true, lastSeen := now, socketId := handle,
        userName := u.userName, userEmail := u.userEmail, avatar := u.avatar }
    let st2 : ServerState := { st1 with presence := mset st1.presence u.userId pres }
    let roomUsers := (st2.activeUsers.map Prod.snd).filter
      (fun s => match mlookup st2.userRooms s.socketId with
                | some rooms => decide ("public-hub" ∈ rooms)
                | none => false)
    (st2, [ .persistPresence u.userId true,
            .emitUserJoined "public-hub" handle u.userId u.userName,
            .emitUsersList handle roomUsers ])
  else
    (st1, [ .emitError handle "Failed to join chat" ])

/-- The message object built by message:send (lines 163-175); likes and
replies start empty, type and roomId take their destructuring defaults. -/
def mkMessage (user : Session) (d : SendData) (sid : String) (now : Nat) : StoredMessage :=
  { id := sid, content := d.content, type := d.type.getD "text",
    userId := user.userId, userName := user.userName, userEmail := user.userEmail,
    avatar := user.avatar, roomId := d.roomId.getD "public-hub",
    likes := [], replies := [], createdAt := now }

/-- message:send handler (lines 152-196). Unauthenticated handles get an
error and nothing else; otherwise the message is persisted (outcome ok,
store-assigned docId) and only on success broadcast to the room; a
persistence failure is caught and reported to the sender only. -/
def messageSend (st : ServerState) (handle : String) (d : SendData)
    (sid docId : String) (now : Nat) (ok : Bool) : ServerState × List Action :=
  match mlookup st.activeUsers handle with
  | none => (st, [ .emitError handle "User not authenticated" ])
  | some user =>
    let message := mkMessage user d sid now
    if ok then
      let st' : ServerState :=
        { st with chatMessages := st.chatMessages ++ [(docId, message)] }
      (st', [ .persistMessage docId message,
              .emitMessageNew (d.roomId.getD "public-hub") message docId ])
    else
      (st, [ .emitError handle "Failed to send message" ])

/-- typing:start / typing:stop handlers (lines 199-217): a pure relay to the
room (excluding the sender) when the handle is authenticated. -/
def typing (st : ServerState) (handle : String) (start : Bool) (room : Option String) :
    ServerState × List Action :=
  match mlookup st.activeUsers handle with
  | none => (st, [])
  | some user =>
    (st, [ .emitTyping start (jsOrOpt room "public-hub") handle user.userId ])

/-- The likes mutation of message:like (lines 233-239): like appends the
userId only when absent, unlike filters it out, anything else is a no-op. -/
def applyReaction (likes : List String) (uid action : String) : List String :=
  if action = "like" ∧ uid ∉ likes then likes ++ [uid]
  else if action = "unlike" then likes.filter (fun i => decide (i ≠ uid))
  else likes

/-- message:like handler (lines 220-254). Silently no-ops when the handle is
unauthenticated, when the store round-trip fails (error only logged), or
when the message document does not exist; otherwise persists the mutated
likes and broadcasts message:liked to the message's room. -/
def messageLike (st : ServerState) (handle : String) (d : LikeData) (ok : Bool) :
    ServerState × List Action :=
  match mlookup st.activeUsers handle with
  | none => (st, [])
  | some user =>
    if ok then
      match mlookup st.chatMessages d.messageId with
      | none => (st, [])
      | some m =>
        let likes := applyReaction m.likes user.userId d.action
        let st' : ServerState :=
          { st with chatMessages := mset st.chatMessages d.messageId { m with likes := likes } }
        (st', [ .persistLikes d.messageId likes,
                .emitMessageLiked (jsOr m.roomId "public-hub") d.messageId likes
                  user.userId d.action ])
    else (st, [])

/-- Offline update of a presence document (disconnect lines 262-265):
update is applied to the existing document. -/
def presenceOffline (m : List (String × PresenceRec)) (uid : String) (now : Nat) :
    List (String × PresenceRec) :=
  match mlookup m uid with
  | none => m
  | some p => mset m uid { p with isOnline := false, lastSeen := now }

/-- disconnect handler (lines 257-286). For a registered handle it awaits
the presence offline write (outcome ok); on success it notifies every room
of the handle and deletes both map entries; a failure is only logged, so
neither the notifications nor the cleanup happen. -/
def disconnect (st : ServerState) (handle : String) (now : Nat) (ok : Bool) :
    ServerState × List Action :=
  match mlookup st.activeUsers handle with
  | none => (st, [])
  | some user =>
    if ok then
      let st1 : ServerState := { st with presence := presenceOffline st.presence user.userId now }
      let rooms := (mlookup st.userRooms handle).getD []
      let emits := rooms.map (fun r => Action.emitUserLeft r handle user.userId user.userName)
      let st2 : ServerState :=
        { st1 with activeUsers := merase st1.activeUsers handle,
                   userRooms := merase st1.userRooms handle }
      (st2, .persistPresence user.userId false :: emits)
    else (st, [])

/-- messages:history handler (lines 289-330). Scans the log newest-first,
positions after the cursor document when it exists (a missing cursor is
ignored), reads limit * 2 documents, filters by roomId in memory, truncates
to limit and reverses to oldest-first; a store failure is caught and
reported as an error to the requester. -/
def messagesHistory (st : ServerState) (handle : String) (d : HistoryData) (ok : Bool) :
    ServerState × List Action :=
  if ok then
    let roomId := d.roomId.getD "public-hub"
    let limit := d.limit.getD 50
    let scan := st.chatMessages.reverse
    let scan' :=
      match d.lastMessageId with
      | some mid =>
        match mlookup st.chatMessages mid with
        | some _ => (scan.dropWhile (fun (p : String × StoredMessage) => decide (p.1 ≠ mid))).drop 1
        | none => scan
      | none => scan
    let fetched := scan'.take (limit * 2)
    let messages := fetched.filter (fun (p : String × StoredMessage) => decide (p.2.roomId = roomId))
    let limited := (messages.take limit).reverse
    (st, [ .emitHistory handle limited ])
  else
    (st, [ .emitError handle "Failed to load message history" ])

/-- One client event together with its store outcome, for runs of the whole
server. -/
inductive Event where
  | join (handle : String) (u : JoinData) (now : Nat) (ok : Bool)
  | send (handle : String) (d : SendData) (sid docId : String) (now : Nat) (ok : Bool)
  | like (handle : String) (d : LikeData) (ok : Bool)
  | typingStart (handle : String) (room : Option String)
  | typingStop (handle : String) (room : Option String)
  | history (handle : String) (d : HistoryData) (ok : Bool)
  | disc (handle : String) (now : Nat) (ok : Bool)
deriving DecidableEq, Repr

/-- Dispatch one event to its handler. -/
def step (st : ServerState) (e : Event) : ServerState × List Action :=
  match e with
  | .join handle u now ok => userJoin st handle u now ok
  | .send handle d sid docId now ok => messageSend st handle d sid docId now ok
  | .like handle d ok => messageLike st handle d ok
  | .typingStart handle room => typing st handle true room
  | .typingStop handle room => typing st handle false room
  | .history handle d ok => messagesHistory st handle d ok
  | .disc handle now ok => disconnect st handle now ok

/-- State after one event. -/
def stepState (st : ServerState) (e : Event) : ServerState :=
  (step st e).1

/-- State after a sequence of events from process start. -/
def run (es : List Event) : ServerState :=
  es.foldl stepState initState

/-- Recognizer for the message:new broadcast. -/
def isMessageNew : Action → Bool
  | .emitMessageNew _ _ _ => true
  | _ => false

/-- Recognizer for the durable-log message write. -/
def isPersistMessage : Action → Bool
  | .persistMessage _ _ => true
  | _ => false

/-- Recognizer for the user:joined broadcast. -/
def isUserJoined : Action → Bool
  | .emitUserJoined _ _ _ _ => true
  | _ => false

/-- Recognizer for the users:list emission. -/
def isUsersList : Action → Bool
  | .emitUsersList _ _ => true
  | _ => false

/-- Recognizer for the user:left broadcast. -/
def isUserLeft : Action → Bool
  | .emitUserLeft _ _ _ _ => true
  | _ => false

/-- Recognizer for the error emission. -/
def isErrorEmit : Action → Bool
  | .emitError _ _ => true
  | _ => false

/-- Every message:new broadcast in the trace is strictly preceded by a
durable-log message write. -/
def newAfterPersist (tr : List Action) : Prop :=
  ∀ i : Fin tr.length, isMessageNew (tr.get i) = true →
    ∃ j : Fin tr.length, (j : Nat) < (i : Nat) ∧ isPersistMessage (tr.get j) = true

/-! Concrete fixtures for witnesses and counterexamples. -/

/-- Sample join payload. -/
def aliceJoin : JoinData :=
  { userId := "u1", userName := "Alice", userEmail := "alice@example.com", avatar := "av1" }

/-- The session stored for aliceJoin on handle s1 at time 0. -/
def aliceSession : Session := mkSession aliceJoin "s1" 0

/-- State after a successful join of handle s1. -/
def joinedState : ServerState := (userJoin initState "s1" aliceJoin 0 true).1

/-- Sample send payload taking both destructuring defaults. -/
def helloSend : SendData := { content := "hello", type := none, roomId := none }

/-- The message object built from helloSend on s1 at time 1. -/
def helloMsg : StoredMessage := mkMessage aliceSession helloSend "m1" 1

/-- State after the join and one successful send (document d1). -/
def sentState : ServerState := (messageSend joinedState "s1" helloSend "m1" "d1" 1 true).1

/-- State after a second successful send (document d2). -/
def sentState2 : ServerState :=
  (messageSend sentState "s1" ⟨"hi", none, none⟩ "m2" "d2" 2 true).1

/-- The i-th document of a 200-document global log; rooms are assigned by the
given predicate on the creation index. -/
def denseMsg (inA : Nat → Bool) (i : Nat) : String × StoredMessage :=
  ("d" ++ Nat.repr i,
   { id := "m" ++ Nat.repr i, content := "c", type := "text",
     userId := "u1", userName := "Alice", userEmail := "alice@example.com",
     avatar := "av1", roomId := if inA i then "room-a" else "room-b",
     likes := [], replies := [], createdAt := i })

/-- 200-document log whose 3 room-a documents are the 3 oldest. -/
def denseLogOldA : List (String × StoredMessage) :=
  (List.range 200).map (denseMsg (fun i => decide (i < 3)))

/-- 200-document log whose 3 room-a documents are the 3 newest. -/
def denseLogNewA : List (String × StoredMessage) :=
  (List.range 200).map (denseMsg (fun i => decide (197 ≤ i)))

/-- Server state holding denseLogOldA. -/
def denseStateOldA : ServerState := { initState with chatMessages := denseLogOldA }

/-- Server state holding denseLogNewA. -/
def denseStateNewA : ServerState := { initState with chatMessages := denseLogNewA }

/-! Map lemmas. -/

theorem mlookup_mset_self {α : Type} (m : List (String × α)) (k : String) (v : α) :
    mlookup (mset m k v) k = some v := by
  induction m with
  | nil => simp [mset, mlookup]
  | cons p rest ih =>
    by_cases h : p.1 = k
    · simp [mset, mlookup, h]
    · simp [mset, mlookup, h, ih]

theorem mlookup_mset_ne {α : Type} (m : List (String × α)) (k k' : String) (v : α)
    (h : k' ≠ k) : mlookup (mset m k v) k' = mlookup m k' := by
  induction m with
  | nil => simp [mset, mlookup, Ne.symm h]
  | cons p rest ih =>
    by_cases hp : p.1 = k
    · subst hp
      simp [mset, mlookup, Ne.symm h]
    · by_cases hp' : p.1 = k'
      · simp [mset, mlookup, hp, hp', h]
      · simp [mset, mlookup, hp, hp', ih]

theorem mlookup_merase_self {α : Type} (m : List (String × α)) (k : String) :
    mlookup (merase m k) k = none := by
  induction m with
  | nil => simp [merase, mlookup]
  | cons p rest ih =>
    by_cases h : p.1 = k
    · simp [merase, h, ih]
    · simp [merase, mlookup, h, ih]

theorem mlookup_merase_ne {α : Type} (m : List (String × α)) (k k' : String)
    (h : k' ≠ k) : mlookup (merase m k) k' = mlookup m k' := by
  induction m with
  | nil => simp [merase]
  | cons p rest ih =>
    by_cases hp : p.1 = k
    · subst hp
      simp [merase, mlookup, Ne.symm h, ih]
    · simp [merase, mlookup, hp, ih]

theorem mset_mset_self {α : Type} (m : List (String × α)) (k : String) (v w : α) :
    mset (mset m k v) k w = mset m k w := by
  induction m with
  | nil => simp [mset]
  | cons p rest ih =>
    by_cases h : p.1 = k
    · simp [mset, h]
    · simp [mset, h, ih]

/-! Reaction lemmas. -/

theorem mem_applyReaction_like (likes : List String) (uid : String) :
    uid ∈ applyReaction likes uid "like" := by
  by_cases h : uid ∈ likes
  · simp [applyReaction, h]
  · simp [applyReaction, h]

theorem applyReaction_like_mem (likes : List String) (uid : String) (h : uid ∈ likes) :
    applyReaction likes uid "like" = likes := by
  simp [applyReaction, h]

theorem applyReaction_like_idem (likes : List String) (uid : String) :
    applyReaction (applyReaction likes uid "like") uid "like" = applyReaction likes uid "like" :=
  applyReaction_like_mem _ _ (mem_applyReaction_like likes uid)

theorem applyReaction_nodup (likes : List String) (uid action : String)
    (h : likes.Nodup) : (applyReaction likes uid action).Nodup := by
  unfold applyReaction
  split
  · rename_i hc
    simp [List.nodup_append]
    exact ⟨h, hc.2⟩
  · split
    · exact h.filter _
    · exact h

/-- Claim C10: user:join is not atomic on failure. When the presence write
fails, the handler emits a generic error to the joining client, yet the
session inserted into activeUsers and the room membership for the handle
remain in place, and neither a user:joined broadcast nor a users:list
message is sent. -/
theorem spec_c10_join_not_atomic (st : ServerState) (h : String) (u : JoinData) (now : Nat) :
    mlookup (userJoin st h u now false).1.activeUsers h = some (mkSession u h now)
    ∧ mlookup (userJoin st h u now false).1.userRooms h = some ["public-hub"]
    ∧ (userJoin st h u now false).1.chatMessages = st.chatMessages
    ∧ (userJoin st h u now false).1.presence = st.presence
    ∧ (userJoin st h u now false).2 = [.emitError h "Failed to join chat"]
    ∧ ((userJoin st h u now false).2.all
        (fun a => !(isUserJoined a) && !(isUsersList a))) = true :=
  ⟨mlookup_mset_self st.activeUsers h (mkSession u h now),
   mlookup_mset_self st.userRooms h ["public-hub"],
   rfl, rfl, rfl, rfl⟩

/-- Claim C6: a message:send from a handle with no session in activeUsers
emits exactly one error event to the sender, performs no durable-log write,
performs no broadcast, and leaves the whole server state unchanged. -/
theorem spec_c6_unauthenticated_send (st : ServerState) (h : String) (d : SendData)
    (sid docId : String) (now : Nat) (ok : Bool)
    (hnone : mlookup st.activeUsers h = none) :
    messageSend st h d sid docId now ok = (st, [.emitError h "User not authenticated"])
    ∧ ((messageSend st h d sid docId now ok).2.all
        (fun a => !(isPersistMessage a) && !(isMessageNew a))) = true := by
  have he : messageSend st h d sid docId now ok
      = (st, [.emitError h "User not authenticated"]) := by
    simp [messageSend, hnone]
  refine ⟨he, ?_⟩
  rw [he]
  rfl

/-- Claim C6 witness at a concrete unauthenticated handle. -/
theorem spec_c6_witness :
    messageSend initState "s9" helloSend "m1" "d1" 1 true
      = (initState, [.emitError "s9" "User not authenticated"])
    ∧ ((messageSend initState "s9" helloSend "m1" "d1" 1 true).2.all
        (fun a => !(isPersistMessage a) && !(isMessageNew a))) = true :=
  spec_c6_unauthenticated_send initState "s9" helloSend "m1" "d1" 1 true rfl

/-- Claim C2 counterexample: on a concrete failing presence write during
user:join the room notification is blocked, not emitted: the trace is a
single error event and contains no user:joined broadcast; likewise a
failing presence write during disconnect yields an empty trace, so no
user:left broadcast. -/
theorem spec_c2_counterexample :
    (userJoin initState "s1" aliceJoin 0 false).2 = [.emitError "s1" "Failed to join chat"]
    ∧ ((userJoin initState "s1" aliceJoin 0 false).2.all (fun a => !(isUserJoined a))) = true
    ∧ mlookup joinedState.activeUsers "s1" = some aliceSession
    ∧ (disconnect joinedState "s1" 2 false).2 = []
    ∧ ((disconnect joinedState "s1" 2 false).2.all (fun a => !(isUserLeft a))) = true := by
  decide

/-- Claim C2 amended: a presence-write failure during user:join or
disconnect is caught, and the room notification is blocked rather than
still emitted: the failing user:join emits only a generic error to the
joining client and no user:joined broadcast, and the failing disconnect of
a registered handle emits nothing at all (so no user:left broadcast) and
leaves the state unchanged. -/
theorem spec_c2_amended_presence_failure_blocks_notification
    (st st' : ServerState) (h h' : String) (u : JoinData) (now now' : Nat) (user : Session)
    (hauth : mlookup st'.activeUsers h' = some user) :
    (userJoin st h u now false).2 = [.emitError h "Failed to join chat"]
    ∧ ((userJoin st h u now false).2.all (fun a => !(isUserJoined a))) = true
    ∧ (disconnect st' h' now' false).2 = []
    ∧ (disconnect st' h' now' false).1 = st' := by
  refine ⟨rfl, rfl, ?_, ?_⟩ <;> simp [disconnect, hauth]

/-- Claim C2 amended witness at a concrete joined state. -/
theorem spec_c2_witness :
    (userJoin initState "s2" aliceJoin 3 false).2 = [.emitError "s2" "Failed to join chat"]
    ∧ ((userJoin initState "s2" aliceJoin 3 false).2.all (fun a => !(isUserJoined a))) = true
    ∧ (disconnect joinedState "s1" 2 false).2 = []
    ∧ (disconnect joinedState "s1" 2 false).1 = joinedState :=
  spec_c2_amended_presence_failure_blocks_notification initState joinedState
    "s2" "s1" aliceJoin 3 2 aliceSession rfl

/-- Claim C7 counterexample: a concrete messages:history request whose
lastMessageId references no document in the log is answered with the normal
messages:history emission (the first page) and no error event at all. -/
theorem spec_c7_counterexample :
    (messagesHistory sentState "s1" ⟨none, none, some "missing"⟩ true).2
      = [.emitHistory "s1" [("d1", helloMsg)]]
    ∧ ((messagesHistory sentState "s1" ⟨none, none, some "missing"⟩ true).2.all
        (fun a => !(isErrorEmit a))) = true := by
  decide

/-- Claim C7 amended: a messages:history request whose lastMessageId cursor
references a document absent from the durable log is silently ignored, not
reported: the handler behaves exactly as if no cursor had been supplied and
emits no error event. -/
theorem spec_c7_amended_missing_cursor_ignored (st : ServerState) (h : String)
    (r : Option String) (lim : Option Nat) (mid : String)
    (hmiss : mlookup st.chatMessages mid = none) :
    messagesHistory st h ⟨r, lim, some mid⟩ true = messagesHistory st h ⟨r, lim, none⟩ true
    ∧ ((messagesHistory st h ⟨r, lim, some mid⟩ true).2.all
        (fun a => !(isErrorEmit a))) = true := by
  constructor
  · simp [messagesHistory, hmiss]
  · simp [messagesHistory, hmiss, isErrorEmit]

/-- Claim C7 amended witness at a concrete missing cursor. -/
theorem spec_c7_witness :
    messagesHistory sentState "s1" ⟨none, none, some "missing"⟩ true
      = messagesHistory sentState "s1" ⟨none, none, none⟩ true
    ∧ ((messagesHistory sentState "s1" ⟨none, none, some "missing"⟩ true).2.all
        (fun a => !(isErrorEmit a))) = true :=
  spec_c7_amended_missing_cursor_ignored sentState "s1" none none "missing" rfl

/-- Claim C1: for an authenticated message:send the message:new broadcast
occurs strictly after the durable-log write in the handler's action trace
(the success trace is exactly the write followed by the broadcast, and in
every run each broadcast is preceded by a write); when the durable-log
write fails, the trace is exactly one error event to the sender and
contains no broadcast, and the state is unchanged. -/
theorem spec_c1_persist_before_broadcast (st : ServerState) (h : String) (d : SendData)
    (sid docId : String) (now : Nat) (user : Session)
    (hauth : mlookup st.activeUsers h = some user) :
    newAfterPersist (messageSend st h d sid docId now true).2
    ∧ newAfterPersist (messageSend st h d sid docId now false).2
    ∧ (messageSend st h d sid docId now true).2
        = [.persistMessage docId (mkMessage user d sid now),
           .emitMessageNew (d.roomId.getD "public-hub") (mkMessage user d sid now) docId]
    ∧ (messageSend st h d sid docId now false).2 = [.emitError h "Failed to send message"]
    ∧ (messageSend st h d sid docId now false).1 = st := by
  have ht : (messageSend st h d sid docId now true).2
      = [.persistMessage docId (mkMessage user d sid now),
         .emitMessageNew (d.roomId.getD "public-hub") (mkMessage user d sid now) docId] := by
    simp [messageSend, hauth]
  have hf : (messageSend st h d sid docId now false).2
      = [.emitError h "Failed to send message"] := by
    simp [messageSend, hauth]
  have hfst : (messageSend st h d sid docId now false).1 = st := by
    simp [messageSend, hauth]
  refine ⟨?_, ?_, ht, hf, hfst⟩
  · rw [ht]
    intro i hi
    match i with
    | ⟨0, _⟩ => exact absurd hi (by simp [isMessageNew, isPersistMessage])
    | ⟨1, _⟩ => exact ⟨⟨0, by simp⟩, Nat.zero_lt_one, rfl⟩
  · rw [hf]
    intro i hi
    match i with
    | ⟨0, _⟩ => exact absurd hi (by simp [isMessageNew])

/-- Claim C1 witness at a concrete authenticated send. -/
theorem spec_c1_witness :
    newAfterPersist (messageSend joinedState "s1" helloSend "m1" "d1" 1 true).2
    ∧ newAfterPersist (messageSend joinedState "s1" helloSend "m1" "d1" 1 false).2
    ∧ (messageSend joinedState "s1" helloSend "m1" "d1" 1 true).2
        = [.persistMessage "d1" (mkMessage aliceSession helloSend "m1" 1),
           .emitMessageNew (helloSend.roomId.getD "public-hub")
             (mkMessage aliceSession helloSend "m1" 1) "d1"]
    ∧ (messageSend joinedState "s1" helloSend "m1" "d1" 1 false).2
        = [.emitError "s1" "Failed to send message"]
    ∧ (messageSend joinedState "s1" helloSend "m1" "d1" 1 false).1 = joinedState :=
  spec_c1_persist_before_broadcast joinedState "s1" helloSend "m1" "d1" 1 aliceSession rfl

/-- Claim C5: liking is idempotent at the handler level. For an
authenticated user and an existing persisted message, running the
message:like handler with action like twice in succession returns the same
state and the same trace (hence the same persisted likes and the same
broadcast likes) as running it once. -/
theorem spec_c5_like_idempotent (st : ServerState) (h mid : String)
    (user : Session) (m : StoredMessage)
    (hauth : mlookup st.activeUsers h = some user)
    (hmsg : mlookup st.chatMessages mid = some m) :
    messageLike (messageLike st h ⟨mid, "like"⟩ true).1 h ⟨mid, "like"⟩ true
      = messageLike st h ⟨mid, "like"⟩ true := by
  have hmem := mem_applyReaction_like m.likes user.userId
  have e2 : applyReaction (applyReaction m.likes user.userId "like") user.userId "like"
      = applyReaction m.likes user.userId "like" := applyReaction_like_mem _ _ hmem
  have e1 : messageLike st h ⟨mid, "like"⟩ true
      = ({ st with chatMessages :=
                     mset st.chatMessages mid
                       { m with likes := applyReaction m.likes user.userId "like" } },
         [ .persistLikes mid (applyReaction m.likes user.userId "like"),
           .emitMessageLiked (jsOr m.roomId "public-hub") mid
             (applyReaction m.likes user.userId "like") user.userId "like" ]) := by
    simp [messageLike, hauth, hmsg]
  rw [e1]
  simp [messageLike, hauth, mlookup_mset_self, e2, mset_mset_self, jsOr]

/-- Claim C5 witness at a concrete message and user. -/
theorem spec_c5_witness :
    messageLike (messageLike sentState "s1" ⟨"d1", "like"⟩ true).1 "s1" ⟨"d1", "like"⟩ true
      = messageLike sentState "s1" ⟨"d1", "like"⟩ true :=
  spec_c5_like_idempotent sentState "s1" "d1" aliceSession helloMsg rfl rfl

/-- Claim C8: the likes list never acquires duplicates. Starting from a
persisted message whose likes list has no duplicates, the message:like
handler (any action, any authenticated user) persists and broadcasts a
likes list that still has no duplicates. -/
theorem spec_c8_likes_nodup_preserved (st : ServerState) (h mid act : String)
    (user : Session) (m : StoredMessage)
    (hauth : mlookup st.activeUsers h = some user)
    (hmsg : mlookup st.chatMessages mid = some m)
    (hnd : m.likes.Nodup) :
    (applyReaction m.likes user.userId act).Nodup
    ∧ mlookup (messageLike st h ⟨mid, act⟩ true).1.chatMessages mid
        = some { m with likes := applyReaction m.likes user.userId act }
    ∧ (messageLike st h ⟨mid, act⟩ true).2
        = [ .persistLikes mid (applyReaction m.likes user.userId act),
            .emitMessageLiked (jsOr m.roomId "public-hub") mid
              (applyReaction m.likes user.userId act) user.userId act ] := by
  refine ⟨applyReaction_nodup m.likes user.userId act hnd, ?_, ?_⟩ <;>
    simp [messageLike, hauth, hmsg, mlookup_mset_self]

/-- Claim C8 witness: a concrete unlike on a message liked by two users. -/
theorem spec_c8_witness :
    (applyReaction helloMsg.likes aliceSession.userId "like").Nodup
    ∧ mlookup (messageLike sentState "s1" ⟨"d1", "like"⟩ true).1.chatMessages "d1"
        = some { helloMsg with likes := applyReaction helloMsg.likes aliceSession.userId "like" }
    ∧ (messageLike sentState "s1" ⟨"d1", "like"⟩ true).2
        = [ .persistLikes "d1" (applyReaction helloMsg.likes aliceSession.userId "like"),
            .emitMessageLiked (jsOr helloMsg.roomId "public-hub") "d1"
              (applyReaction helloMsg.likes aliceSession.userId "like")
              aliceSession.userId "like" ] :=
  spec_c8_likes_nodup_preserved sentState "s1" "d1" "like" aliceSession helloMsg rfl rfl
    (by decide)

/-- When the overfetch window (limit * 2 newest documents) already contains
every document of the requested room and the room's document count is at
most the limit, the history handler returns exactly the room's documents in
log (oldest-first) order. -/
theorem history_exact (st : ServerState) (h r : String) (lim n : Nat)
    (hcap : (st.chatMessages.reverse.take (lim * 2)).filter
        (fun (p : String × StoredMessage) => decide (p.2.roomId = r))
      = st.chatMessages.reverse.filter
          (fun (p : String × StoredMessage) => decide (p.2.roomId = r)))
    (hn : (st.chatMessages.filter
        (fun (p : String × StoredMessage) => decide (p.2.roomId = r))).length = n)
    (hle : n ≤ lim) :
    messagesHistory st h ⟨some r, some lim, none⟩ true
      = (st, [ .emitHistory h (st.chatMessages.filter
          (fun (p : String × StoredMessage) => decide (p.2.roomId = r))) ]) := by
  simp only [messagesHistory, Option.getD_some]
  rw [hcap, List.filter_reverse]
  have htake : ((st.chatMessages.filter
      (fun (p : String × StoredMessage) => decide (p.2.roomId = r))).reverse).take lim
      = (st.chatMessages.filter
          (fun (p : String × StoredMessage) => decide (p.2.roomId = r))).reverse := by
    apply List.take_of_length_le
    rw [List.length_reverse, hn]
    exact hle
  rw [htake, List.reverse_reverse]
  simp

/-- Claim C3: for a room whose documents in the log are M1..Mn in creation
order, a messages:history request with limit n and no cursor returns
exactly those documents oldest-first (the room-filtered log in log order),
provided the overfetch window of the scan (n * 2 newest documents) already
contains all of them. -/
theorem spec_c3_history_returns_all_in_order (st : ServerState) (h r : String) (n : Nat)
    (hcap : (st.chatMessages.reverse.take (n * 2)).filter
        (fun (p : String × StoredMessage) => decide (p.2.roomId = r))
      = st.chatMessages.reverse.filter
          (fun (p : String × StoredMessage) => decide (p.2.roomId = r)))
    (hn : (st.chatMessages.filter
        (fun (p : String × StoredMessage) => decide (p.2.roomId = r))).length = n) :
    messagesHistory st h ⟨some r, some n, none⟩ true
      = (st, [ .emitHistory h (st.chatMessages.filter
          (fun (p : String × StoredMessage) => decide (p.2.roomId = r))) ]) :=
  history_exact st h r n n hcap hn (Nat.le_refl n)

/-- Claim C3 witness: a room with two messages, fetched with limit 2. -/
theorem spec_c3_witness :
    messagesHistory sentState2 "s1" ⟨some "public-hub", some 2, none⟩ true
      = (sentState2, [ .emitHistory "s1" (sentState2.chatMessages.filter
          (fun (p : String × StoredMessage) => decide (p.2.roomId = "public-hub"))) ]) :=
  spec_c3_history_returns_all_in_order sentState2 "s1" "public-hub" 2 (by decide) (by decide)

set_option maxRecDepth 100000 in
/-- Claim C4 counterexample: limit 50 on a room with exactly 3 matching
documents among 200 global documents does not always return the 3: when the
3 room documents are the 3 oldest of the log, the 100-document overfetch
window misses them and the handler returns the empty page. -/
theorem spec_c4_counterexample :
    (messagesHistory denseStateOldA "s1" ⟨some "room-a", some 50, none⟩ true).2
      = [ .emitHistory "s1" [] ]
    ∧ (denseStateOldA.chatMessages.filter
        (fun (p : String × StoredMessage) => decide (p.2.roomId = "room-a"))).length = 3
    ∧ denseStateOldA.chatMessages.length = 200 := by
  decide

/-- Claim C4 amended: a messages:history request with limit 50 on a room
that has exactly 3 matching messages among 200 global messages in the log
returns exactly those 3 oldest-first without an error event, provided the 3
lie within the 100-document (limit * 2) overfetch window of the scan. -/
theorem spec_c4_amended_boundary (st : ServerState) (h r : String)
    (hglobal : st.chatMessages.length = 200)
    (hcap : (st.chatMessages.reverse.take (50 * 2)).filter
        (fun (p : String × StoredMessage) => decide (p.2.roomId = r))
      = st.chatMessages.reverse.filter
          (fun (p : String × StoredMessage) => decide (p.2.roomId = r)))
    (hcount : (st.chatMessages.filter
        (fun (p : String × StoredMessage) => decide (p.2.roomId = r))).length = 3) :
    messagesHistory st h ⟨some r, some 50, none⟩ true
      = (st, [ .emitHistory h (st.chatMessages.filter
          (fun (p : String × StoredMessage) => decide (p.2.roomId = r))) ])
    ∧ ((messagesHistory st h ⟨some r, some 50, none⟩ true).2.all
        (fun a => !(isErrorEmit a))) = true := by
  have he := history_exact st h r 50 3 hcap hcount (by omega)
  refine ⟨he, ?_⟩
  rw [he]
  rfl

set_option maxRecDepth 100000 in
/-- Claim C4 amended witness: the 3 room documents are the 3 newest of the
200-document log, hence inside the overfetch window. -/
theorem spec_c4_witness :
    messagesHistory denseStateNewA "s1" ⟨some "room-a", some 50, none⟩ true
      = (denseStateNewA, [ .emitHistory "s1" (denseStateNewA.chatMessages.filter
          (fun (p : String × StoredMessage) => decide (p.2.roomId = "room-a"))) ])
    ∧ ((messagesHistory denseStateNewA "s1" ⟨some "room-a", some 50, none⟩ true).2.all
        (fun a => !(isErrorEmit a))) = true :=
  spec_c4_amended_boundary denseStateNewA "s1" "room-a" (by decide) (by decide) (by decide)

/-- Invariant: every handle with a room-membership entry has a session. -/
def Inv (st : ServerState) : Prop :=
  ∀ h : String, (mlookup st.userRooms h).isSome = true →
    (mlookup st.activeUsers h).isSome = true

/-- The initial state satisfies the invariant. -/
theorem inv_initState : Inv initState := by
  intro h hh
  simp [initState, mlookup] at hh

/-- The send handler touches neither in-memory map. -/
theorem messageSend_maps (st : ServerState) (h : String) (d : SendData)
    (sid docId : String) (now : Nat) (ok : Bool) :
    (messageSend st h d sid docId now ok).1.activeUsers = st.activeUsers
    ∧ (messageSend st h d sid docId now ok).1.userRooms = st.userRooms := by
  unfold messageSend
  cases mlookup st.activeUsers h <;> cases ok <;> exact ⟨rfl, rfl⟩

/-- The like handler touches neither in-memory map. -/
theorem messageLike_maps (st : ServerState) (h : String) (d : LikeData) (ok : Bool) :
    (messageLike st h d ok).1.activeUsers = st.activeUsers
    ∧ (messageLike st h d ok).1.userRooms = st.userRooms := by
  unfold messageLike
  cases mlookup st.activeUsers h with
  | none => exact ⟨rfl, rfl⟩
  | some user =>
    cases ok with
    | false => exact ⟨rfl, rfl⟩
    | true => cases mlookup st.chatMessages d.messageId <;> exact ⟨rfl, rfl⟩

/-- The typing handlers do not change the state at all. -/
theorem typing_fst (st : ServerState) (h : String) (s : Bool) (room : Option String) :
    (typing st h s room).1 = st := by
  unfold typing
  cases mlookup st.activeUsers h <;> rfl

/-- The history handler does not change the state at all. -/
theorem messagesHistory_fst (st : ServerState) (h : String) (d : HistoryData) (ok : Bool) :
    (messagesHistory st h d ok).1 = st := by
  unfold messagesHistory
  cases ok <;> rfl

/-- Each event preserves the invariant. -/
theorem inv_step (st : ServerState) (e : Event) (hinv : Inv st) : Inv (stepState st e) := by
  cases e with
  | join handle u now ok =>
    intro h' hh'
    have hru : (stepState st (.join handle u now ok)).userRooms
        = mset st.userRooms handle ["public-hub"] := by
      cases ok <;> rfl
    have hau : (stepState st (.join handle u now ok)).activeUsers
        = mset st.activeUsers handle (mkSession u handle now) := by
      cases ok <;> rfl
    rw [hau]
    rw [hru] at hh'
    by_cases he : h' = handle
    · subst he
      rw [mlookup_mset_self]
      rfl
    · rw [mlookup_mset_ne _ _ _ _ he] at hh'
      rw [mlookup_mset_ne _ _ _ _ he]
      exact hinv h' hh'
  | send handle d sid docId now ok =>
    intro h' hh'
    have hm := messageSend_maps st handle d sid docId now ok
    show (mlookup (messageSend st handle d sid docId now ok).1.activeUsers h').isSome = true
    rw [hm.1]
    have : (mlookup (messageSend st handle d sid docId now ok).1.userRooms h').isSome
        = true := hh'
    rw [hm.2] at this
    exact hinv h' this
  | like handle d ok =>
    intro h' hh'
    have hm := messageLike_maps st handle d ok
    show (mlookup (messageLike st handle d ok).1.activeUsers h').isSome = true
    rw [hm.1]
    have : (mlookup (messageLike st handle d ok).1.userRooms h').isSome = true := hh'
    rw [hm.2] at this
    exact hinv h' this
  | typingStart handle room =>
    intro h' hh'
    have hm := typing_fst st handle true room
    show (mlookup (typing st handle true room).1.activeUsers h').isSome = true
    rw [hm]
    have : (mlookup (typing st handle true room).1.userRooms h').isSome = true := hh'
    rw [hm] at this
    exact hinv h' this
  | typingStop handle room =>
    intro h' hh'
    have hm := typing_fst st handle false room
    show (mlookup (typing st handle false room).1.activeUsers h').isSome = true
    rw [hm]
    have : (mlookup (typing st handle false room).1.userRooms h').isSome = true := hh'
    rw [hm] at this
    exact hinv h' this
  | history handle d ok =>
    intro h' hh'
    have hm := messagesHistory_fst st handle d ok
    show (mlookup (messagesHistory st handle d ok).1.activeUsers h').isSome = true
    rw [hm]
    have : (mlookup (messagesHistory st handle d ok).1.userRooms h').isSome = true := hh'
    rw [hm] at this
    exact hinv h' this
  | disc handle now ok =>
    have key : (disconnect st handle now ok).1 = st
        ∨ ((disconnect st handle now ok).1.activeUsers = merase st.activeUsers handle
          ∧ (disconnect st handle now ok).1.userRooms = merase st.userRooms handle) := by
      unfold disconnect
      cases mlookup st.activeUsers handle with
      | none => exact Or.inl rfl
      | some user =>
        cases ok with
        | false => exact Or.inl rfl
        | true => exact Or.inr ⟨rfl, rfl⟩
    intro h' hh'
    show (mlookup (disconnect st handle now ok).1.activeUsers h').isSome = true
    have hh2 : (mlookup (disconnect st handle now ok).1.userRooms h').isSome = true := hh'
    rcases key with heq | ⟨hau, hru⟩
    · rw [heq] at hh2 ⊢
      exact hinv h' hh2
    · rw [hau]
      rw [hru] at hh2
      by_cases he : h' = handle
      · subst he
        rw [mlookup_merase_self] at hh2
        simp at hh2
      · rw [mlookup_merase_ne _ _ _ he] at hh2
        rw [mlookup_merase_ne _ _ _ he]
        exact hinv h' hh2

/-- Any run from an invariant state stays invariant. -/
theorem inv_run (es : List Event) : ∀ st : ServerState, Inv st → Inv (es.foldl stepState st) := by
  induction es with
  | nil => intro st h; exact h
  | cons e rest ih => intro st h; exact ih _ (inv_step st e h)

/-- Claim C9: in every state reachable from process start by any sequence of
user:join, message:send, message:like, typing, messages:history and
disconnect events (with any store outcomes), a handle with an entry in the
userRooms map also has an entry in the activeUsers map. -/
theorem spec_c9_membership_implies_session (es : List Event) (h : String)
    (hmem : (mlookup (run es).userRooms h).isSome = true) :
    (mlookup (run es).activeUsers h).isSome = true :=
  inv_run es initState inv_initState h hmem

/-- Claim C9 witness: a concrete run ending with a membership entry. -/
theorem spec_c9_witness :
    (mlookup (run [Event.join "s1" aliceJoin 0 true,
                   Event.send "s1" helloSend "m1" "d1" 1 true,
                   Event.disc "s1" 2 false]).activeUsers "s1").isSome = true :=
  spec_c9_membership_implies_session
    [Event.join "s1" aliceJoin 0 true,
     Event.send "s1" helloSend "m1" "d1" 1 true,
     Event.disc "s1" 2 false] "s1" (by decide)

end ChatServer
